import Mathlib

/-!
Verification of the order/payment state machine of the `moonlit-promise-official`
storefront (src/server.js, src/database.js, src/discordLogger.js).

The relational store (SQLite tables `products`, `cart`, `orders`, `order_items`,
`payments`, `coupons`) is embedded as a `Store` structure of association lists.
Each HTTP route that the claims mention is embedded as a pure function on
`Store`, translated statement-by-statement from src/server.js:

* `POST /cart/add/:productId`        → `Shop.addItem`          (server.js:766)
* `POST /cart/update/:cartId`       → `Shop.updateQuantity`   (server.js:838)
* `POST /cart/apply-coupon`         → `Shop.applyCoupon`      (server.js:862)
* `POST /checkout/process`          → `Shop.processCheckout`  (server.js:976)
* `POST /order/:id/cancel`          → `Shop.cancelOrder`      (server.js:1399)
* `POST /admin/orders/:id/verify-payment` → `Shop.verifyPayment` (server.js:1790)

Money columns (`DECIMAL(10,2)`) are embedded as `ℚ`; the `stock INTEGER`
column (which carries no CHECK constraint, database.js:43) as `ℤ`;
quantities as `ℕ`.  The checkout transaction (`BEGIN`/`COMMIT`/`ROLLBACK`)
is embedded as a list of primitive row writes run through `Shop.runTxn`
with an explicit failure oracle, mirroring the rollback-on-exception
structure of the route.  The Discord notification sink is embedded through
`Shop.SinkMode`: `deliveryFail` is an error swallowed inside
`DiscordLogger.sendToChannel` (discordLogger.js:190, the catch around
`channel.send`), while `throws` is an exception escaping the awaited
logger call itself, which lands in the route-level catch block.
-/

namespace Shop

/-- One row of the `products` table: `price DECIMAL(10,2)`, `stock INTEGER`.
The stock column has no non-negativity constraint, so it is embedded as `ℤ`. -/
structure Prd where
  price : ℚ
  stock : ℤ
  deriving Repr, DecidableEq

/-- One row of the `cart` table: `(id, user_id, product_id, quantity)`. -/
structure CartLine where
  id : ℕ
  userId : ℕ
  productId : ℕ
  quantity : ℕ
  deriving Repr, DecidableEq

/-- One row of the `orders` table (the columns the claims are about). -/
structure Order where
  id : ℕ
  userId : ℕ
  total : ℚ
  status : String
  deriving Repr, DecidableEq

/-- One row of the `order_items` table: immutable snapshot of a cart line. -/
structure OrderItem where
  orderId : ℕ
  productId : ℕ
  quantity : ℕ
  price : ℚ
  deriving Repr, DecidableEq

/-- One row of the `payments` table (the columns the claims are about). -/
structure Payment where
  orderId : ℕ
  amount : ℚ
  status : String
  deriving Repr, DecidableEq

/-- One row of the `coupons` table.  `max_discount` and `usage_limit` are
nullable columns, embedded as `Option`. -/
structure Coupon where
  id : ℕ
  code : String
  discountType : String
  discountValue : ℚ
  minOrderAmount : ℚ
  maxDiscount : Option ℚ
  validFrom : ℤ
  validUntil : ℤ
  usageLimit : Option ℕ
  usedCount : ℕ
  deriving Repr, DecidableEq

/-- The relational store: the six tables the claims touch, plus the
autoincrement counters for `cart.id` and `orders.id`. -/
structure Store where
  products : List (ℕ × Prd)
  cart : List CartLine
  orders : List Order
  orderItems : List OrderItem
  payments : List Payment
  coupons : List Coupon
  nextCartId : ℕ
  nextOrderId : ℕ
  deriving Repr, DecidableEq

/-- HTTP-level outcome of a route, as the client sees it. -/
inductive Response where
  | redirect (orderId : ℕ)
  | jsonSuccess
  | jsonFailure (msg : String)
  | notFound (msg : String)
  | badRequest (msg : String)
  | serverError
  | empty
  deriving Repr, DecidableEq

/-- Behaviour of the Discord notification sink during one request:
`ok` = message delivered; `deliveryFail` = `channel.send` fails and the
error is caught inside `sendToChannel` (discordLogger.js:190-199);
`throws` = the awaited logger call itself throws into the route. -/
inductive SinkMode where
  | ok
  | deliveryFail
  | throws
  deriving Repr, DecidableEq

/-- The awaited logger call as seen by the route: `sendToChannel` swallows
delivery failures, so only `throws` escapes as an exception. -/
def notify : SinkMode → Except Unit Unit
  | SinkMode.throws => Except.error ()
  | _ => Except.ok ()

/-- `SELECT * FROM products WHERE id = ?`. -/
def lookupList (m : List (ℕ × Prd)) (pid : ℕ) : Option Prd :=
  match m with
  | [] => none
  | e :: t => if e.1 = pid then some e.2 else lookupList t pid

/-- `UPDATE products SET stock = stock + δ WHERE id = pid`. -/
def addStockList (m : List (ℕ × Prd)) (pid : ℕ) (δ : ℤ) : List (ℕ × Prd) :=
  m.map (fun e => if e.1 = pid then (e.1, { e.2 with stock := e.2.stock + δ }) else e)

/-- The stock column of product `pid`, if the row exists. -/
def getStockM (m : List (ℕ × Prd)) (pid : ℕ) : Option ℤ :=
  (lookupList m pid).map (fun p => p.stock)

/-- `SELECT * FROM cart WHERE user_id = ? AND product_id = ?` (server.js:780). -/
def findCartLine (s : Store) (u pid : ℕ) : Option CartLine :=
  s.cart.find? (fun c => c.userId == u && c.productId == pid)

/-- `POST /cart/add/:productId` (server.js:766-809): product lookup,
stock check, then insert of a fresh line or increment of the existing one. -/
def addItem (s : Store) (u pid qty : ℕ) : Store × Response :=
  match lookupList s.products pid with
  | none => (s, Response.notFound "Product not found")
  | some p =>
      if p.stock < (qty : ℤ) then
        (s, Response.badRequest "Insufficient stock")
      else
        match findCartLine s u pid with
        | some existing =>
            let newQuantity := existing.quantity + qty
            if p.stock < (newQuantity : ℤ) then
              (s, Response.badRequest "Cannot add more than available stock")
            else
              ({ s with cart := s.cart.map (fun c =>
                  if c.id = existing.id then { c with quantity := newQuantity } else c) },
               Response.jsonSuccess)
        | none =>
            ({ s with
                cart := s.cart ++ [⟨s.nextCartId, u, pid, qty⟩],
                nextCartId := s.nextCartId + 1 },
             Response.jsonSuccess)

/-- `POST /cart/update/:cartId` (server.js:838-848): writes the requested
quantity with an ownership filter but no stock check of any kind. -/
def updateQuantity (s : Store) (u cartId qty : ℕ) : Store × Response :=
  ({ s with cart := s.cart.map (fun c =>
      if c.id = cartId && c.userId == u then { c with quantity := qty } else c) },
   Response.jsonSuccess)

/-- The cart-products join used by the cart, coupon and checkout routes
(`SELECT c.*, p.price FROM cart c JOIN products p ON c.product_id = p.id
WHERE c.user_id = ?`): the user's cart lines paired with the live price. -/
def cartJoin (s : Store) (u : ℕ) : List (CartLine × ℚ) :=
  s.cart.filterMap (fun c =>
    if c.userId = u then (lookupList s.products c.productId).map (fun p => (c, p.price))
    else none)

/-- `subtotal += item.price * item.quantity` over the joined cart. -/
def cartSubtotal (items : List (CartLine × ℚ)) : ℚ :=
  (items.map (fun it => it.2 * (it.1.quantity : ℚ))).sum

/-- The SQL filter of the coupon lookup (server.js:866-869):
inside the validity window and under the usage cap (or no cap). -/
def couponValid (c : Coupon) (now : ℤ) : Bool :=
  c.validFrom ≤ now && now ≤ c.validUntil &&
    (match c.usageLimit with
     | none => true
     | some l => c.usedCount < l)

/-- `SELECT * FROM coupons WHERE code = ? AND ...` (server.js:866). -/
def couponFind (s : Store) (code : String) (now : ℤ) : Option Coupon :=
  s.coupons.find? (fun c => c.code == code && couponValid c now)

/-- The discount computation of server.js:895-903.  JavaScript's
`coupon.max_discount && amount > coupon.max_discount` treats a NULL or
zero `max_discount` as no cap. -/
def couponDiscount (c : Coupon) (subtotal : ℚ) : ℚ :=
  if c.discountType == "percentage" then
    let a := subtotal * c.discountValue / 100
    match c.maxDiscount with
    | some m => if m ≠ 0 ∧ m < a then m else a
    | none => a
  else c.discountValue

/-- `UPDATE coupons SET used_count = used_count + 1 WHERE id = ?`. -/
def incUsedCount (s : Store) (cid : ℕ) : Store :=
  { s with coupons := s.coupons.map (fun c =>
      if c.id = cid then { c with usedCount := c.usedCount + 1 } else c) }

/-- `POST /cart/apply-coupon` (server.js:862-917).  Returns the new store,
the response, and the session discount after the request
(`req.session.discount`). -/
def applyCoupon (s : Store) (u : ℕ) (code : String) (now : ℤ) (sess : Option ℚ) :
    Store × Response × Option ℚ :=
  match couponFind s code now with
  | none => (s, Response.jsonFailure "Invalid or expired coupon", sess)
  | some c =>
      let subtotal := cartSubtotal (cartJoin s u)
      if subtotal < c.minOrderAmount then
        (s, Response.jsonFailure "Minimum order amount required", sess)
      else
        (incUsedCount s c.id, Response.jsonSuccess, some (couponDiscount c subtotal))

/-- A primitive row write issued by `db.run` inside the checkout
transaction (server.js:1013-1038). -/
inductive DbWrite where
  | insertOrder (o : Order)
  | insertOrderItem (it : OrderItem)
  | addStock (pid : ℕ) (δ : ℤ)
  | insertPayment (p : Payment)
  | clearCart (u : ℕ)
  deriving Repr, DecidableEq

/-- Effect of one primitive write on the store. -/
def applyWrite (s : Store) (w : DbWrite) : Store :=
  match w with
  | DbWrite.insertOrder o =>
      { s with orders := s.orders ++ [o], nextOrderId := s.nextOrderId + 1 }
  | DbWrite.insertOrderItem it => { s with orderItems := s.orderItems ++ [it] }
  | DbWrite.addStock pid δ => { s with products := addStockList s.products pid δ }
  | DbWrite.insertPayment p => { s with payments := s.payments ++ [p] }
  | DbWrite.clearCart u => { s with cart := s.cart.filter (fun c => c.userId ≠ u) }

/-- The write sequence of the checkout transaction, in source order:
insert the order, then per cart line one order-item insert and one stock
decrement, then the payment insert and the cart deletion. -/
def checkoutWrites (u oid : ℕ) (items : List (CartLine × ℚ)) (total : ℚ) : List DbWrite :=
  [DbWrite.insertOrder ⟨oid, u, total, "pending"⟩]
    ++ (items.map (fun it =>
         [DbWrite.insertOrderItem ⟨oid, it.1.productId, it.1.quantity, it.2⟩,
          DbWrite.addStock it.1.productId (-(it.1.quantity : ℤ))])).flatten
    ++ [DbWrite.insertPayment ⟨oid, total, "pending"⟩, DbWrite.clearCart u]

/-- `BEGIN TRANSACTION` … `COMMIT` with rollback on exception: the failure
oracle `failAt = some k` makes the `k`-th write (or, at `k = ws.length`,
the COMMIT itself) throw, so the whole transaction rolls back and the
result is `none`; otherwise all writes are applied in order. -/
def runTxn (s : Store) (ws : List DbWrite) (failAt : Option ℕ) : Option Store :=
  match failAt with
  | some k => if k ≤ ws.length then none else some (ws.foldl applyWrite s)
  | none => some (ws.foldl applyWrite s)

/-- Result of `POST /checkout/process`: the persisted store, the HTTP
response, and the session discount after the request. -/
structure CheckoutOutcome where
  store : Store
  response : Response
  sessionDiscount : Option ℚ
  deriving Repr, DecidableEq

/-- `POST /checkout/process` (server.js:976-1083).  Loads the joined cart
(400 if empty, before any transaction), computes
`total = subtotal + 18% tax + shipping − session discount` with the flat
₹50 shipping fee waived from a ₹999 subtotal, runs the write sequence in
one transaction, deletes the session discount just before COMMIT, and
after COMMIT awaits the notification calls inside the same try block: a
rollback restores the initial store and answers 500, and a throwing
notification call also answers 500 — but after COMMIT, so the committed
store stands. -/
def processCheckout (s : Store) (u : ℕ) (sess : Option ℚ) (failAt : Option ℕ)
    (sink : SinkMode) : CheckoutOutcome :=
  let items := cartJoin s u
  if items.isEmpty then ⟨s, Response.badRequest "Cart is empty", sess⟩
  else
    let subtotal := cartSubtotal items
    let tax := subtotal * (18 / 100)
    let shipping : ℚ := if 999 ≤ subtotal then 0 else 50
    let discount := sess.getD 0
    let total := subtotal + tax + shipping - discount
    let oid := s.nextOrderId
    let ws := checkoutWrites u oid items total
    match runTxn s ws failAt with
    | none =>
        ⟨s, Response.serverError, if failAt = some ws.length then none else sess⟩
    | some s1 =>
        match notify sink with
        | Except.error _ => ⟨s1, Response.serverError, none⟩
        | Except.ok _ => ⟨s1, Response.redirect oid, none⟩

/-- `SELECT * FROM orders WHERE id = ?` (server.js:1793). -/
def findOrderById (s : Store) (oid : ℕ) : Option Order :=
  s.orders.find? (fun o => o.id == oid)

/-- `UPDATE orders SET status = ? WHERE id = ?`. -/
def setOrderStatus (s : Store) (oid : ℕ) (st : String) : Store :=
  { s with orders := s.orders.map (fun o =>
      if o.id = oid then { o with status := st } else o) }

/-- `UPDATE payments SET status = ? WHERE order_id = ?`. -/
def setPaymentStatus (s : Store) (oid : ℕ) (st : String) : Store :=
  { s with payments := s.payments.map (fun p =>
      if p.orderId = oid then { p with status := st } else p) }

/-- The stock-restore loop shared by rejection and cancellation
(server.js:1819-1822 and 1411-1414): for each order item of the order,
`UPDATE products SET stock = stock + quantity WHERE id = product_id`. -/
def orderDeltas (s : Store) (oid : ℕ) : List (ℕ × ℤ) :=
  (s.orderItems.filter (fun it => it.orderId == oid)).map
    (fun it => (it.productId, (it.quantity : ℤ)))

/-- Fold a list of per-product stock deltas over the products table. -/
def applyDeltas (m : List (ℕ × Prd)) (l : List (ℕ × ℤ)) : List (ℕ × Prd) :=
  l.foldl (fun m2 e => addStockList m2 e.1 e.2) m

/-- Effect of the stock-restore loop on the store. -/
def restoreStock (s : Store) (oid : ℕ) : Store :=
  { s with products := applyDeltas s.products (orderDeltas s oid) }

/-- `POST /admin/orders/:id/verify-payment` (server.js:1790-1833).  No
status guard at all: the order is looked up by id only (a missing order
throws on `order.user_id` and answers 500).  `completed` marks order and
payment completed; `failed` marks the order cancelled, the payment
failed, and restores stock for every order item; any other outcome falls
through both branches and sends nothing. -/
def verifyPayment (s : Store) (oid : ℕ) (outcome : String) (sink : SinkMode) :
    Store × Response :=
  match findOrderById s oid with
  | none => (s, Response.serverError)
  | some _ =>
      if outcome == "completed" then
        let s2 := setPaymentStatus (setOrderStatus s oid "completed") oid "completed"
        match notify sink with
        | Except.error _ => (s2, Response.serverError)
        | Except.ok _ => (s2, Response.jsonSuccess)
      else if outcome == "failed" then
        let s3 := restoreStock (setPaymentStatus (setOrderStatus s oid "cancelled") oid "failed") oid
        match notify sink with
        | Except.error _ => (s3, Response.serverError)
        | Except.ok _ => (s3, Response.jsonSuccess)
      else (s, Response.empty)

/-- The guarded lookup of `POST /order/:id/cancel` (server.js:1401):
`SELECT * FROM orders WHERE id = ? AND user_id = ? AND status IN
("pending", "processing")`. -/
def cancelGuard (s : Store) (u oid : ℕ) : Option Order :=
  s.orders.find? (fun o =>
    o.id == oid && o.userId == u && (o.status == "pending" || o.status == "processing"))

/-- `POST /order/:id/cancel` (server.js:1399-1427): rejected with 400
unless the guarded lookup succeeds; otherwise the order is marked
cancelled, each order item's quantity is added back to its product's
stock, and the payment rows of the order are marked cancelled. -/
def cancelOrder (s : Store) (u oid : ℕ) (sink : SinkMode) : Store × Response :=
  match cancelGuard s u oid with
  | none => (s, Response.badRequest "Order cannot be cancelled")
  | some _ =>
      let s3 := setPaymentStatus (restoreStock (setOrderStatus s oid "cancelled") oid) oid "cancelled"
      match notify sink with
      | Except.error _ => (s3, Response.serverError)
      | Except.ok _ => (s3, Response.jsonSuccess)

/-- The order-item row frozen from a joined cart line at checkout. -/
def toOrderItem (oid : ℕ) (it : CartLine × ℚ) : OrderItem :=
  ⟨oid, it.1.productId, it.1.quantity, it.2⟩

/-- The stock decrements issued by the checkout loop, one per cart line. -/
def decDeltas (items : List (CartLine × ℚ)) : List (ℕ × ℤ) :=
  items.map (fun it => (it.1.productId, -(it.1.quantity : ℤ)))

/-- The stock increments the restore loop issues for the items frozen
from the joined cart lines, one per line. -/
def incDeltas (items : List (CartLine × ℚ)) : List (ℕ × ℤ) :=
  items.map (fun it => (it.1.productId, (it.1.quantity : ℤ)))

/-- Net delta that a list of stock writes applies to product `q`. -/
def sumDeltas (l : List (ℕ × ℤ)) (q : ℕ) : ℤ :=
  ((l.filter (fun e => e.1 == q)).map (fun e => e.2)).sum

/-- Stock of product `pid` in the store. -/
def storeStock (s : Store) (pid : ℕ) : Option ℤ :=
  getStockM s.products pid

/-- The per-line middle section of the checkout write sequence. -/
def itemWrites (oid : ℕ) (items : List (CartLine × ℚ)) : List DbWrite :=
  (items.map (fun it =>
    [DbWrite.insertOrderItem (toOrderItem oid it),
     DbWrite.addStock it.1.productId (-(it.1.quantity : ℤ))])).flatten

/-- The store a successful checkout transaction commits: new order row,
frozen order items, decremented stocks, new pending payment, cleared cart. -/
def commitStore (s : Store) (u oid : ℕ) (items : List (CartLine × ℚ)) (total : ℚ) : Store :=
  { s with
    orders := s.orders ++ [⟨oid, u, total, "pending"⟩],
    orderItems := s.orderItems ++ items.map (toOrderItem oid),
    products := applyDeltas s.products (decDeltas items),
    payments := s.payments ++ [⟨oid, total, "pending"⟩],
    cart := s.cart.filter (fun c => c.userId ≠ u),
    nextOrderId := s.nextOrderId + 1 }

/-- Scenario A store: one product (price 100, stock 5), one cart line of
quantity 2 for user 7. -/
def sA : Store :=
  ⟨[(1, ⟨100, 5⟩)], [⟨11, 7, 1, 2⟩], [], [], [], [], 12, 501⟩

/-- Scenario C store: one product (price 100, stock 5), one cart line of
quantity 3 for user 7. -/
def sC : Store :=
  ⟨[(1, ⟨100, 5⟩)], [⟨11, 7, 1, 3⟩], [], [], [], [], 12, 501⟩

/-- Store with a pending order (one item of quantity 3) for cancellation
and verification runs. -/
def sOrd : Store :=
  ⟨[(1, ⟨100, 2⟩)], [], [⟨42, 7, 404, "pending"⟩], [⟨42, 1, 3, 100⟩],
    [⟨42, 404, "pending"⟩], [], 12, 501⟩

/-- Store for the addItem boundary runs: one product of stock 5, and an
existing cart line of quantity 2 for user 8. -/
def sAdd : Store :=
  ⟨[(1, ⟨100, 5⟩)], [⟨11, 8, 1, 2⟩], [], [], [], [], 12, 501⟩

/-- Scenario B store: the SAVE20 coupon (20 percent, minimum order 500,
maximum discount 200, live window, cap 50, unused) and a cart whose
subtotal is 400. -/
def sB : Store :=
  ⟨[(1, ⟨200, 10⟩)], [⟨11, 7, 1, 2⟩], [], [], [],
    [⟨1, "SAVE20", "percentage", 20, 500, some 200, 0, 100, some 50, 0⟩], 12, 501⟩

/-- Store for the oversell run: one product of stock 1, empty cart. -/
def s7 : Store :=
  ⟨[(1, ⟨100, 1⟩)], [], [], [], [], [], 11, 501⟩

/-- Store for the cart-bound run: one product of stock 5 and a cart line
of quantity 1 for user 7. -/
def s8 : Store :=
  ⟨[(1, ⟨100, 5⟩)], [⟨11, 7, 1, 1⟩], [], [], [], [], 12, 501⟩

/-- Store with an already-cancelled order 42 (one item of quantity 3)
whose payment already failed. -/
def sDone : Store :=
  ⟨[(1, ⟨100, 2⟩)], [], [⟨42, 7, 404, "cancelled"⟩], [⟨42, 1, 3, 100⟩],
    [⟨42, 404, "failed"⟩], [], 12, 501⟩

theorem addStockList_cons (e : ℕ × Prd) (t : List (ℕ × Prd)) (pid : ℕ) (δ : ℤ) :
    addStockList (e :: t) pid δ =
      (if e.1 = pid then (e.1, { e.2 with stock := e.2.stock + δ }) else e) ::
        addStockList t pid δ := rfl

theorem lookupList_cons (e : ℕ × Prd) (t : List (ℕ × Prd)) (q : ℕ) :
    lookupList (e :: t) q = if e.1 = q then some e.2 else lookupList t q := rfl

theorem lookupList_addStockList (m : List (ℕ × Prd)) (pid : ℕ) (δ : ℤ) (q : ℕ) :
    lookupList (addStockList m pid δ) q =
      if q = pid then (lookupList m q).map (fun p => { p with stock := p.stock + δ })
      else lookupList m q := by
  induction m with
  | nil => simp [lookupList, addStockList]
  | cons e t ih =>
      rw [addStockList_cons]
      by_cases hqp : q = pid
      · rw [if_pos hqp]
        by_cases hp : e.1 = pid
        · rw [if_pos hp]
          by_cases hq : e.1 = q
          · simp [lookupList_cons, hq]
          · have ih' := ih
            rw [if_pos hqp] at ih'
            simp [lookupList_cons, hq, ih']
        · rw [if_neg hp]
          have hq : ¬ e.1 = q := fun h => hp (h.trans hqp)
          have ih' := ih
          rw [if_pos hqp] at ih'
          simp [lookupList_cons, hq, ih']
      · rw [if_neg hqp]
        have ih' := ih
        rw [if_neg hqp] at ih'
        by_cases hp : e.1 = pid
        · rw [if_pos hp]
          have hq : ¬ e.1 = q := fun h => hqp (h.symm.trans hp)
          simp [lookupList_cons, hq, ih']
        · rw [if_neg hp]
          by_cases hq : e.1 = q
          · simp [lookupList_cons, hq]
          · simp [lookupList_cons, hq, ih']

theorem getStockM_addStockList (m : List (ℕ × Prd)) (pid : ℕ) (δ : ℤ) (q : ℕ) :
    getStockM (addStockList m pid δ) q =
      if q = pid then (getStockM m q).map (fun x => x + δ) else getStockM m q := by
  unfold getStockM
  rw [lookupList_addStockList]
  by_cases h : q = pid
  · rw [if_pos h, if_pos h]
    cases lookupList m q with
    | none => rfl
    | some p => rfl
  · rw [if_neg h, if_neg h]

theorem sumDeltas_cons (e : ℕ × ℤ) (l : List (ℕ × ℤ)) (q : ℕ) :
    sumDeltas (e :: l) q = (if e.1 = q then e.2 else 0) + sumDeltas l q := by
  by_cases h : e.1 = q <;> simp [sumDeltas, List.filter_cons, h]

theorem getStockM_applyDeltas (l : List (ℕ × ℤ)) (m : List (ℕ × Prd)) (q : ℕ) :
    getStockM (applyDeltas m l) q = (getStockM m q).map (fun x => x + sumDeltas l q) := by
  induction l generalizing m with
  | nil =>
      simp [applyDeltas, sumDeltas]
  | cons e l ih =>
      have step : applyDeltas m (e :: l) = applyDeltas (addStockList m e.1 e.2) l := rfl
      rw [step, ih, getStockM_addStockList, sumDeltas_cons]
      by_cases h : q = e.1
      · simp [h, Option.map_map, Function.comp, add_assoc]
      · have h2 : ¬ e.1 = q := fun hh => h hh.symm
        simp [h, h2]

theorem sumDeltas_eq_zero_of_not_mem (l : List (ℕ × ℤ)) (q : ℕ)
    (h : q ∉ l.map (fun e => e.1)) : sumDeltas l q = 0 := by
  induction l with
  | nil => simp [sumDeltas]
  | cons e t ih =>
      rw [sumDeltas_cons]
      have h1 : ¬ e.1 = q := by
        intro hh; exact h (by simp [hh])
      have h2 : q ∉ t.map (fun e => e.1) := fun hm => h (by simp [hm])
      simp [h1, ih h2]

theorem decDeltas_cons (a : CartLine × ℚ) (t : List (CartLine × ℚ)) :
    decDeltas (a :: t) = (a.1.productId, -(a.1.quantity : ℤ)) :: decDeltas t := rfl

theorem sumDeltas_decDeltas_of_nodup (items : List (CartLine × ℚ))
    (hnd : (items.map (fun it => it.1.productId)).Nodup) :
    ∀ it ∈ items, sumDeltas (decDeltas items) it.1.productId = -(it.1.quantity : ℤ) := by
  induction items with
  | nil => intro it h; simp at h
  | cons a t ih =>
      intro it hmem
      rw [List.map_cons, List.nodup_cons] at hnd
      rcases List.mem_cons.mp hmem with h | h
      · subst h
        have hz : sumDeltas (decDeltas t) it.1.productId = 0 := by
          apply sumDeltas_eq_zero_of_not_mem
          simpa [decDeltas, List.map_map, Function.comp] using hnd.1
        rw [decDeltas_cons, sumDeltas_cons, hz, if_pos rfl, add_zero]
      · have hne : ¬ a.1.productId = it.1.productId := by
          intro hh
          exact hnd.1 (hh ▸ List.mem_map.mpr ⟨it, h, rfl⟩)
        have ht := ih hnd.2 it h
        rw [decDeltas_cons, sumDeltas_cons, if_neg hne, ht, zero_add]

theorem applyDeltas_cons (m : List (ℕ × Prd)) (e : ℕ × ℤ) (l : List (ℕ × ℤ)) :
    applyDeltas m (e :: l) = applyDeltas (addStockList m e.1 e.2) l := rfl

theorem checkoutWrites_split (u oid : ℕ) (items : List (CartLine × ℚ)) (total : ℚ) :
    checkoutWrites u oid items total =
      DbWrite.insertOrder ⟨oid, u, total, "pending"⟩ :: itemWrites oid items ++
        [DbWrite.insertPayment ⟨oid, total, "pending"⟩, DbWrite.clearCart u] := rfl

theorem foldl_itemWrites (oid : ℕ) (items : List (CartLine × ℚ)) (s : Store) :
    (itemWrites oid items).foldl applyWrite s =
      { s with orderItems := s.orderItems ++ items.map (toOrderItem oid),
               products := applyDeltas s.products (decDeltas items) } := by
  induction items generalizing s with
  | nil =>
      show s = _
      simp [applyDeltas, decDeltas]
  | cons a t ih =>
      have hw : itemWrites oid (a :: t) =
          DbWrite.insertOrderItem (toOrderItem oid a) ::
            DbWrite.addStock a.1.productId (-(a.1.quantity : ℤ)) :: itemWrites oid t := rfl
      rw [hw]
      simp only [List.foldl_cons]
      rw [ih]
      simp [applyWrite, decDeltas_cons, applyDeltas_cons]

theorem foldl_checkoutWrites (s : Store) (u oid : ℕ) (items : List (CartLine × ℚ))
    (total : ℚ) :
    (checkoutWrites u oid items total).foldl applyWrite s =
      commitStore s u oid items total := by
  rw [checkoutWrites_split]
  simp only [List.foldl_cons, List.foldl_append]
  rw [foldl_itemWrites]
  simp [applyWrite, commitStore]

/-- On a non-empty cart with no injected failure and a working sink, the
checkout route commits exactly `commitStore` at the next order id, clears
the session discount, and redirects. -/
theorem processCheckout_success (s : Store) (u : ℕ) (sess : Option ℚ)
    (hne : cartJoin s u ≠ []) :
    processCheckout s u sess none SinkMode.ok =
      ⟨commitStore s u s.nextOrderId (cartJoin s u)
        (cartSubtotal (cartJoin s u) + cartSubtotal (cartJoin s u) * (18 / 100) +
          (if 999 ≤ cartSubtotal (cartJoin s u) then 0 else 50) - sess.getD 0),
       Response.redirect s.nextOrderId, none⟩ := by
  have hitems : (cartJoin s u).isEmpty = false := by
    cases hcj : cartJoin s u with
    | nil => exact absurd hcj hne
    | cons a t => rfl
  unfold processCheckout
  simp only [hitems, Bool.false_eq_true, if_false, runTxn, notify]
  rw [foldl_checkoutWrites]

/-- C1: for every checkout on a non-empty cart (whose lines reference
distinct products, the shape `addItem` maintains), the persisted order
total equals subtotal + tax + shipping − discount with subtotal =
Σ(qty × live price), tax = 18% of subtotal, shipping = 0 when the
subtotal is at least 999 and 50 otherwise, and discount the session-held
discount; and each purchased product's stock is decremented by exactly
the purchased quantity. -/
theorem C1_checkout_total_and_stock (s : Store) (u : ℕ) (sess : Option ℚ)
    (hne : cartJoin s u ≠ [])
    (hnd : ((cartJoin s u).map (fun it => it.1.productId)).Nodup) :
    (processCheckout s u sess none SinkMode.ok).store.orders =
      s.orders ++ [⟨s.nextOrderId, u,
        cartSubtotal (cartJoin s u) + cartSubtotal (cartJoin s u) * (18 / 100) +
          (if 999 ≤ cartSubtotal (cartJoin s u) then 0 else 50) - sess.getD 0, "pending"⟩] ∧
    ∀ it ∈ cartJoin s u,
      storeStock (processCheckout s u sess none SinkMode.ok).store it.1.productId =
        (storeStock s it.1.productId).map (fun x => x - (it.1.quantity : ℤ)) := by
  rw [processCheckout_success s u sess hne]
  constructor
  · rfl
  · intro it hit
    show getStockM (applyDeltas s.products (decDeltas (cartJoin s u))) it.1.productId =
      (getStockM s.products it.1.productId).map (fun x => x - (it.1.quantity : ℤ))
    rw [getStockM_applyDeltas, sumDeltas_decDeltas_of_nodup (cartJoin s u) hnd it hit]
    cases getStockM s.products it.1.productId with
    | none => rfl
    | some x => simp [sub_eq_add_neg]

/-- Witness for C1, scenario A: a cart with 2 × Product(stock 5,
price 100) checks out at total 286 = 200 + 36 (18% tax) + 50 (shipping)
and leaves stock 3. -/
theorem C1_checkout_total_and_stock_witness :
    cartJoin sA 7 ≠ [] ∧
    (processCheckout sA 7 none none SinkMode.ok).store.orders =
      [⟨501, 7, 286, "pending"⟩] ∧
    storeStock (processCheckout sA 7 none none SinkMode.ok).store 1 = some 3 := by
  have h := C1_checkout_total_and_stock sA 7 none (by decide) (by decide)
  refine ⟨by decide, ?_, ?_⟩
  · rw [h.1]
    norm_num [sA, cartJoin, cartSubtotal, lookupList, List.filterMap_cons]
  · have h2 := h.2 ⟨⟨11, 7, 1, 2⟩, 100⟩ (by decide)
    rw [h2]
    decide

/-- On a non-empty cart with no injected failure but a throwing sink, the
transaction still commits, yet the response is the 500 of the route-level
catch block (the post-COMMIT `ROLLBACK` cannot undo a committed
transaction). -/
theorem processCheckout_throws (s : Store) (u : ℕ) (sess : Option ℚ)
    (hne : cartJoin s u ≠ []) :
    processCheckout s u sess none SinkMode.throws =
      ⟨commitStore s u s.nextOrderId (cartJoin s u)
        (cartSubtotal (cartJoin s u) + cartSubtotal (cartJoin s u) * (18 / 100) +
          (if 999 ≤ cartSubtotal (cartJoin s u) then 0 else 50) - sess.getD 0),
       Response.serverError, none⟩ := by
  have hitems : (cartJoin s u).isEmpty = false := by
    cases hcj : cartJoin s u with
    | nil => exact absurd hcj hne
    | cons a t => rfl
  unfold processCheckout
  simp only [hitems, Bool.false_eq_true, if_false, runTxn, notify]
  rw [foldl_checkoutWrites]

/-- C2 (amended): a checkout failure at any step up to and including the
COMMIT — the EmptyCart rejection before the transaction, or a thrown
write/commit — rolls everything back: no order, order-item, payment,
stock or cart mutation persists and the store is exactly the initial one.
(The counterexample shows the post-commit notification step is the one
exception the claim overlooks.) -/
theorem C2_checkout_rollback_up_to_commit (s : Store) (u : ℕ) (sess : Option ℚ)
    (failAt : Option ℕ) (sink : SinkMode)
    (hfail : cartJoin s u = [] ∨
      ∃ k, failAt = some k ∧
        k ≤ (checkoutWrites u s.nextOrderId (cartJoin s u)
              (cartSubtotal (cartJoin s u) + cartSubtotal (cartJoin s u) * (18 / 100) +
                (if 999 ≤ cartSubtotal (cartJoin s u) then 0 else 50) - sess.getD 0)).length) :
    (processCheckout s u sess failAt sink).store = s ∧
    ((processCheckout s u sess failAt sink).response = Response.badRequest "Cart is empty" ∨
      (processCheckout s u sess failAt sink).response = Response.serverError) := by
  by_cases hne : cartJoin s u = []
  · have hitems : (cartJoin s u).isEmpty = true := by rw [hne]; rfl
    unfold processCheckout
    simp only [hitems, if_true]
    exact ⟨trivial, Or.inl trivial⟩
  · rcases hfail with h | ⟨k, hk, hlen⟩
    · exact absurd h hne
    · have hitems : (cartJoin s u).isEmpty = false := by
        cases hcj : cartJoin s u with
        | nil => exact absurd hcj hne
        | cons a t => rfl
      subst hk
      unfold processCheckout
      simp only [hitems, Bool.false_eq_true, if_false, runTxn]
      rw [if_pos hlen]
      exact ⟨rfl, Or.inr rfl⟩

/-- Witness for C2: the EmptyCart rejection (user 7 has no cart lines in
`sOrd`) leaves the store untouched, and an injected failure at the very
first write of scenario A's checkout rolls the whole transaction back. -/
theorem C2_checkout_rollback_up_to_commit_witness :
    cartJoin sOrd 7 = [] ∧
    (processCheckout sOrd 7 none none SinkMode.ok).store = sOrd ∧
    (processCheckout sA 7 none (some 0) SinkMode.ok).store = sA ∧
    ((processCheckout sA 7 none (some 0) SinkMode.ok).response =
        Response.badRequest "Cart is empty" ∨
      (processCheckout sA 7 none (some 0) SinkMode.ok).response = Response.serverError) := by
  have h1 := C2_checkout_rollback_up_to_commit sOrd 7 none none SinkMode.ok (Or.inl (by decide))
  have h2 := C2_checkout_rollback_up_to_commit sA 7 none (some 0) SinkMode.ok
    (Or.inr ⟨0, rfl, by decide⟩)
  exact ⟨by decide, h1.1, h2.1, h2.2⟩

/-- C2 counterexample: with the notification call throwing after COMMIT,
the scenario-A checkout reports failure (500) yet an order row persists —
the store is not what it was before the checkout began. -/
theorem C2_checkout_not_atomic_counterexample :
    (processCheckout sA 7 none none SinkMode.throws).response = Response.serverError ∧
    (processCheckout sA 7 none none SinkMode.throws).store.orders.length = 1 ∧
    (processCheckout sA 7 none none SinkMode.throws).store ≠ sA := by
  rw [processCheckout_throws sA 7 none (by decide)]
  refine ⟨rfl, ?_, ?_⟩
  · simp [commitStore, sA]
  · intro hcontra
    have horders := congrArg (fun st => st.orders.length) hcontra
    simp [commitStore, sA] at horders

/-- C9 (amended): a notification delivery failure — the error caught
inside `sendToChannel` — is invisible: checkout, payment verification and
cancellation produce identical stores, responses and sessions as a run
with a working sink.  A notification call that itself throws still leaves
the committed store identical to the success run (it cannot change the
user-visible response, which the counterexample shows turning into an
error). -/
theorem C9_sink_failure_effect (s : Store) (u oid : ℕ) (sess : Option ℚ)
    (failAt : Option ℕ) (outcome : String) :
    processCheckout s u sess failAt SinkMode.deliveryFail =
        processCheckout s u sess failAt SinkMode.ok ∧
    verifyPayment s oid outcome SinkMode.deliveryFail =
        verifyPayment s oid outcome SinkMode.ok ∧
    cancelOrder s u oid SinkMode.deliveryFail = cancelOrder s u oid SinkMode.ok ∧
    (processCheckout s u sess failAt SinkMode.throws).store =
        (processCheckout s u sess failAt SinkMode.ok).store ∧
    (verifyPayment s oid outcome SinkMode.throws).1 =
        (verifyPayment s oid outcome SinkMode.ok).1 ∧
    (cancelOrder s u oid SinkMode.throws).1 = (cancelOrder s u oid SinkMode.ok).1 := by
  have hnot : notify SinkMode.deliveryFail = notify SinkMode.ok := rfl
  refine ⟨?_, ?_, ?_, ?_, ?_, ?_⟩
  · unfold processCheckout
    simp only [hnot]
  · unfold verifyPayment
    simp only [hnot]
  · unfold cancelOrder
    simp only [hnot]
  · unfold processCheckout
    simp only [notify]
    split
    · rfl
    · split <;> rfl
  · unfold verifyPayment
    simp only [notify]
    split
    · rfl
    · split
      · rfl
      · split <;> rfl
  · unfold cancelOrder
    simp only [notify]
    split <;> rfl

/-- C9 counterexample: on the pending order of `sOrd`, a cancellation run
whose notification call throws commits exactly the same store as the
successful-sink run, yet the user receives a 500 instead of the success
response. -/
theorem C9_sink_throw_changes_response_counterexample :
    (cancelOrder sOrd 7 42 SinkMode.throws).1 = (cancelOrder sOrd 7 42 SinkMode.ok).1 ∧
    (cancelOrder sOrd 7 42 SinkMode.throws).2 = Response.serverError ∧
    (cancelOrder sOrd 7 42 SinkMode.ok).2 = Response.jsonSuccess := by
  decide

theorem incDeltas_cons (a : CartLine × ℚ) (t : List (CartLine × ℚ)) :
    incDeltas (a :: t) = (a.1.productId, (a.1.quantity : ℤ)) :: incDeltas t := rfl

/-- Per product, the checkout decrements and the restore increments of
the same cart lines cancel exactly. -/
theorem sumDeltas_dec_add_inc (items : List (CartLine × ℚ)) (q : ℕ) :
    sumDeltas (decDeltas items) q + sumDeltas (incDeltas items) q = 0 := by
  induction items with
  | nil => simp [decDeltas, incDeltas, sumDeltas]
  | cons a t ih =>
      rw [decDeltas_cons, incDeltas_cons, sumDeltas_cons, sumDeltas_cons]
      by_cases h : a.1.productId = q
      · rw [if_pos h, if_pos h]; omega
      · rw [if_neg h, if_neg h]; omega

/-- When the pre-existing order items do not mention the fresh order id,
the restore deltas of the just-committed order are exactly the per-line
increments of the checked-out cart. -/
theorem orderDeltas_commitStore (s : Store) (u oid : ℕ)
    (items : List (CartLine × ℚ)) (total : ℚ)
    (hfreshI : ∀ it ∈ s.orderItems, it.orderId ≠ oid) :
    orderDeltas (commitStore s u oid items total) oid = incDeltas items := by
  unfold orderDeltas commitStore
  have h1 : s.orderItems.filter (fun it => it.orderId == oid) = [] := by
    rw [List.filter_eq_nil_iff]
    intro a ha
    simpa using hfreshI a ha
  have h2 : (items.map (toOrderItem oid)).filter (fun it => it.orderId == oid) =
      items.map (toOrderItem oid) := by
    rw [List.filter_eq_self]
    intro a ha
    rcases List.mem_map.mp ha with ⟨it, _, rfl⟩
    simp [toOrderItem]
  simp only [List.filter_append, h1, h2, List.nil_append, List.map_map]
  rfl

/-- Effect of the verify-failed branch when the order exists: order
cancelled, payment failed, stock restored, JSON success. -/
theorem verifyPayment_failed_effect (s : Store) (oid : ℕ) (o : Order)
    (hfind : findOrderById s oid = some o) :
    verifyPayment s oid "failed" SinkMode.ok =
      (restoreStock (setPaymentStatus (setOrderStatus s oid "cancelled") oid "failed") oid,
       Response.jsonSuccess) := by
  unfold verifyPayment
  rw [hfind]
  rfl

/-- Every order row carrying the targeted id ends with the written status. -/
theorem setOrderStatus_mem (s : Store) (oid : ℕ) (st : String) :
    ∀ o ∈ (setOrderStatus s oid st).orders, o.id = oid → o.status = st := by
  intro o ho hid
  rcases List.mem_map.mp ho with ⟨o0, _, rfl⟩
  by_cases h : o0.id = oid
  · simp [h]
  · simp only [if_neg h] at hid ⊢
    exact absurd hid h

/-- Every payment row carrying the targeted order id ends with the
written status. -/
theorem setPaymentStatus_mem (s : Store) (oid : ℕ) (st : String) :
    ∀ p ∈ (setPaymentStatus s oid st).payments, p.orderId = oid → p.status = st := by
  intro p hp hid
  rcases List.mem_map.mp hp with ⟨p0, _, rfl⟩
  by_cases h : p0.orderId = oid
  · simp [h]
  · simp only [if_neg h] at hid ⊢
    exact absurd hid h

/-- C3: a checkout of a non-empty cart immediately followed by an admin
verify-payment with outcome failed is stock-neutral for every product
(net zero), marks the new order cancelled and its payment failed, and
reports success.  The freshness hypothesis says pre-existing order items
do not use the autoincrement id the new order receives. -/
theorem storeStock_def (s : Store) (q : ℕ) : storeStock s q = getStockM s.products q := rfl

theorem restoreStock_products (s : Store) (oid : ℕ) :
    (restoreStock s oid).products = applyDeltas s.products (orderDeltas s oid) := rfl

theorem restoreStock_orders (s : Store) (oid : ℕ) :
    (restoreStock s oid).orders = s.orders := rfl

theorem restoreStock_payments (s : Store) (oid : ℕ) :
    (restoreStock s oid).payments = s.payments := rfl

theorem setPaymentStatus_products (s : Store) (oid : ℕ) (st : String) :
    (setPaymentStatus s oid st).products = s.products := rfl

theorem setOrderStatus_products (s : Store) (oid : ℕ) (st : String) :
    (setOrderStatus s oid st).products = s.products := rfl

theorem setPaymentStatus_orders (s : Store) (oid : ℕ) (st : String) :
    (setPaymentStatus s oid st).orders = s.orders := rfl

theorem commitStore_products (s : Store) (u oid : ℕ) (items : List (CartLine × ℚ))
    (total : ℚ) :
    (commitStore s u oid items total).products = applyDeltas s.products (decDeltas items) :=
  rfl

theorem orderDeltas_eq_of_orderItems (s t : Store) (oid : ℕ)
    (h : s.orderItems = t.orderItems) : orderDeltas s oid = orderDeltas t oid := by
  unfold orderDeltas
  rw [h]

/-- Net stock neutrality of commit followed by verify-failed restore. -/
theorem storeStock_restore_commit (s : Store) (u oid : ℕ) (items : List (CartLine × ℚ))
    (total : ℚ) (hfreshI : ∀ it ∈ s.orderItems, it.orderId ≠ oid) (q : ℕ) :
    storeStock (restoreStock (setPaymentStatus (setOrderStatus
        (commitStore s u oid items total) oid "cancelled") oid "failed") oid) q =
      storeStock s q := by
  rw [storeStock_def, storeStock_def, restoreStock_products,
      setPaymentStatus_products, setOrderStatus_products,
      orderDeltas_eq_of_orderItems
        (setPaymentStatus (setOrderStatus (commitStore s u oid items total) oid "cancelled")
          oid "failed")
        (commitStore s u oid items total) oid rfl,
      orderDeltas_commitStore s u oid items total hfreshI, commitStore_products,
      getStockM_applyDeltas, getStockM_applyDeltas, Option.map_map]
  have hsum := sumDeltas_dec_add_inc items q
  cases getStockM s.products q with
  | none => rfl
  | some x =>
      show some _ = some x
      have : x + sumDeltas (decDeltas items) q + sumDeltas (incDeltas items) q = x := by
        omega
      simp [Function.comp, add_assoc, this]

/-- The committed order is findable under its id. -/
theorem findOrderById_commitStore_isSome (s : Store) (u oid : ℕ)
    (items : List (CartLine × ℚ)) (total : ℚ) :
    (findOrderById (commitStore s u oid items total) oid).isSome := by
  unfold findOrderById commitStore
  rw [List.find?_isSome]
  exact ⟨⟨oid, u, total, "pending"⟩, by simp, by simp⟩

/-- C3: a checkout of a non-empty cart immediately followed by an admin
verify-payment with outcome failed is stock-neutral for every product
(net zero), marks every order row under the new order's id cancelled and
its payment rows failed, and reports success.  The freshness hypothesis
says pre-existing order items do not carry the autoincrement id the new
order receives. -/
theorem C3_checkout_then_verify_failed_roundtrip (s : Store) (u : ℕ) (sess : Option ℚ)
    (hne : cartJoin s u ≠ [])
    (hfreshI : ∀ it ∈ s.orderItems, it.orderId ≠ s.nextOrderId) :
    (∀ q, storeStock (verifyPayment (processCheckout s u sess none SinkMode.ok).store
        s.nextOrderId "failed" SinkMode.ok).1 q = storeStock s q) ∧
    (∀ o ∈ (verifyPayment (processCheckout s u sess none SinkMode.ok).store
        s.nextOrderId "failed" SinkMode.ok).1.orders,
      o.id = s.nextOrderId → o.status = "cancelled") ∧
    (∀ p ∈ (verifyPayment (processCheckout s u sess none SinkMode.ok).store
        s.nextOrderId "failed" SinkMode.ok).1.payments,
      p.orderId = s.nextOrderId → p.status = "failed") ∧
    (verifyPayment (processCheckout s u sess none SinkMode.ok).store
        s.nextOrderId "failed" SinkMode.ok).2 = Response.jsonSuccess := by
  rw [processCheckout_success s u sess hne]
  rcases Option.isSome_iff_exists.mp
      (findOrderById_commitStore_isSome s u s.nextOrderId (cartJoin s u)
        (cartSubtotal (cartJoin s u) + cartSubtotal (cartJoin s u) * (18 / 100) +
          (if 999 ≤ cartSubtotal (cartJoin s u) then 0 else 50) - sess.getD 0)) with ⟨o, ho⟩
  rw [show ((⟨commitStore s u s.nextOrderId (cartJoin s u)
      (cartSubtotal (cartJoin s u) + cartSubtotal (cartJoin s u) * (18 / 100) +
        (if 999 ≤ cartSubtotal (cartJoin s u) then 0 else 50) - sess.getD 0),
      Response.redirect s.nextOrderId, none⟩ : CheckoutOutcome).store =
      commitStore s u s.nextOrderId (cartJoin s u)
        (cartSubtotal (cartJoin s u) + cartSubtotal (cartJoin s u) * (18 / 100) +
          (if 999 ≤ cartSubtotal (cartJoin s u) then 0 else 50) - sess.getD 0)) from rfl,
    verifyPayment_failed_effect _ _ _ ho]
  refine ⟨?_, ?_, ?_, rfl⟩
  · intro q
    exact storeStock_restore_commit s u s.nextOrderId (cartJoin s u) _ hfreshI q
  · intro o2 ho2 hid
    rw [restoreStock_orders, setPaymentStatus_orders] at ho2
    exact setOrderStatus_mem _ s.nextOrderId "cancelled" o2 ho2 hid
  · intro p hp hid
    rw [restoreStock_payments] at hp
    exact setPaymentStatus_mem _ s.nextOrderId "failed" p hp hid

/-- Witness for C3, scenario C: checking out 3 × Product(stock 5) and
rejecting the payment brings stock back to 5 (net zero) and reports
success. -/
theorem C3_checkout_then_verify_failed_roundtrip_witness :
    cartJoin sC 7 ≠ [] ∧
    (∀ q, storeStock (verifyPayment (processCheckout sC 7 none none SinkMode.ok).store
        501 "failed" SinkMode.ok).1 q = storeStock sC q) ∧
    storeStock (verifyPayment (processCheckout sC 7 none none SinkMode.ok).store
        501 "failed" SinkMode.ok).1 1 = some 5 ∧
    (verifyPayment (processCheckout sC 7 none none SinkMode.ok).store
        501 "failed" SinkMode.ok).2 = Response.jsonSuccess := by
  have h := C3_checkout_then_verify_failed_roundtrip sC 7 none (by decide) (by decide)
  simp only [show sC.nextOrderId = 501 from rfl] at h
  refine ⟨by decide, h.1, ?_, h.2.2.2⟩
  rw [h.1 1]
  decide

/-- In a delta list whose product ids are distinct, the net delta of a
listed product is its own entry. -/
theorem sumDeltas_eq_of_nodup (l : List (ℕ × ℤ)) (hnd : (l.map (fun e => e.1)).Nodup) :
    ∀ e ∈ l, sumDeltas l e.1 = e.2 := by
  induction l with
  | nil => intro e h; simp at h
  | cons a t ih =>
      intro e he
      rw [List.map_cons, List.nodup_cons] at hnd
      rcases List.mem_cons.mp he with h | h
      · subst h
        rw [sumDeltas_cons, sumDeltas_eq_zero_of_not_mem t e.1 hnd.1, if_pos rfl, add_zero]
      · have hne2 : ¬ a.1 = e.1 := fun hh => hnd.1 (hh ▸ List.mem_map.mpr ⟨e, h, rfl⟩)
        rw [sumDeltas_cons, if_neg hne2, ih hnd.2 e h, zero_add]

/-- Effect of a cancellation that passes the guard: order cancelled,
stock restored, payment cancelled, JSON success. -/
theorem cancelOrder_effect (s : Store) (u oid : ℕ) (o : Order)
    (hguard : cancelGuard s u oid = some o) :
    cancelOrder s u oid SinkMode.ok =
      (setPaymentStatus (restoreStock (setOrderStatus s oid "cancelled") oid) oid "cancelled",
       Response.jsonSuccess) := by
  unfold cancelOrder
  rw [hguard]
  rfl

/-- After a cancellation, no order row with the cancelled id passes the
pending-or-processing guard again. -/
theorem cancelGuard_after_cancel (s : Store) (u oid : ℕ) :
    cancelGuard (setPaymentStatus (restoreStock (setOrderStatus s oid "cancelled") oid)
      oid "cancelled") u oid = none := by
  unfold cancelGuard
  rw [List.find?_eq_none]
  intro o2 ho2
  rw [setPaymentStatus_orders, restoreStock_orders] at ho2
  rcases List.mem_map.mp ho2 with ⟨o0, _, rfl⟩
  by_cases h : o0.id = oid
  · simp [h]
  · simp [h]

/-- C4: while an order of the requesting user is pending or processing,
cancellation succeeds: the order rows under its id become cancelled,
each order item's quantity is added back to its product's stock, and the
payment rows become cancelled; a second cancellation of the same order is
rejected with the store unchanged, so the restoration happens exactly
once across the two calls. -/
theorem C4_cancel_guarded_idempotent (s : Store) (u oid : ℕ) (o : Order)
    (ho : o ∈ s.orders) (hid : o.id = oid) (huser : o.userId = u)
    (hstatus : o.status = "pending" ∨ o.status = "processing")
    (hnd : ((orderDeltas s oid).map (fun e => e.1)).Nodup) :
    (cancelOrder s u oid SinkMode.ok).2 = Response.jsonSuccess ∧
    (∀ o2 ∈ (cancelOrder s u oid SinkMode.ok).1.orders,
      o2.id = oid → o2.status = "cancelled") ∧
    (∀ it ∈ s.orderItems, it.orderId = oid →
      storeStock (cancelOrder s u oid SinkMode.ok).1 it.productId =
        (storeStock s it.productId).map (fun x => x + (it.quantity : ℤ))) ∧
    (∀ p ∈ (cancelOrder s u oid SinkMode.ok).1.payments,
      p.orderId = oid → p.status = "cancelled") ∧
    cancelOrder (cancelOrder s u oid SinkMode.ok).1 u oid SinkMode.ok =
      ((cancelOrder s u oid SinkMode.ok).1,
        Response.badRequest "Order cannot be cancelled") := by
  have hpred : (o.id == oid && o.userId == u &&
      (o.status == "pending" || o.status == "processing")) = true := by
    rcases hstatus with h | h <;> simp [hid, huser, h]
  have hsome : (cancelGuard s u oid).isSome := by
    unfold cancelGuard
    rw [List.find?_isSome]
    exact ⟨o, ho, hpred⟩
  rcases Option.isSome_iff_exists.mp hsome with ⟨o', hguard⟩
  rw [cancelOrder_effect s u oid o' hguard]
  refine ⟨rfl, ?_, ?_, ?_, ?_⟩
  · intro o2 ho2 hid2
    rw [setPaymentStatus_orders, restoreStock_orders] at ho2
    exact setOrderStatus_mem s oid "cancelled" o2 ho2 hid2
  · intro it hit hoid
    have hmem : (it.productId, (it.quantity : ℤ)) ∈ orderDeltas s oid := by
      unfold orderDeltas
      exact List.mem_map.mpr ⟨it, List.mem_filter.mpr ⟨hit, by simp [hoid]⟩, rfl⟩
    have hsum := sumDeltas_eq_of_nodup (orderDeltas s oid) hnd _ hmem
    simp only at hsum
    rw [storeStock_def, storeStock_def, setPaymentStatus_products, restoreStock_products,
        setOrderStatus_products,
        orderDeltas_eq_of_orderItems (setOrderStatus s oid "cancelled") s oid rfl,
        getStockM_applyDeltas, hsum]
  · intro p hp hid2
    exact setPaymentStatus_mem _ oid "cancelled" p hp hid2
  · unfold cancelOrder
    rw [cancelGuard_after_cancel s u oid]

/-- Witness for C4: the pending order 42 of `sOrd` (one item of
quantity 3, product stock 2) cancels to stock 5 with payment cancelled,
and a second cancel is rejected without further changes. -/
theorem C4_cancel_guarded_idempotent_witness :
    (⟨42, 7, 404, "pending"⟩ : Order) ∈ sOrd.orders ∧
    (cancelOrder sOrd 7 42 SinkMode.ok).2 = Response.jsonSuccess ∧
    storeStock (cancelOrder sOrd 7 42 SinkMode.ok).1 1 = some 5 ∧
    cancelOrder (cancelOrder sOrd 7 42 SinkMode.ok).1 7 42 SinkMode.ok =
      ((cancelOrder sOrd 7 42 SinkMode.ok).1,
        Response.badRequest "Order cannot be cancelled") := by
  have h := C4_cancel_guarded_idempotent sOrd 7 42 ⟨42, 7, 404, "pending"⟩
    (by decide) rfl rfl (Or.inl rfl) (by decide)
  refine ⟨by decide, h.1, ?_, h.2.2.2.2⟩
  have h2 := h.2.2.1 ⟨42, 1, 3, 100⟩ (by decide) rfl
  rw [h2]
  decide

/-- C10: verify-payment checks nothing about the order's current status —
for an order in any state whatsoever (already cancelled, completed, …),
outcome failed sets the status to cancelled, marks the payment failed,
and adds the order items' quantities to stock again; running it twice
restores the stock twice, unlike the status-guarded cancel route. -/
theorem C10_verifyPayment_unguarded (s : Store) (oid : ℕ) (o : Order)
    (hfind : findOrderById s oid = some o) :
    (verifyPayment s oid "failed" SinkMode.ok).2 = Response.jsonSuccess ∧
    (∀ o2 ∈ (verifyPayment s oid "failed" SinkMode.ok).1.orders,
      o2.id = oid → o2.status = "cancelled") ∧
    (∀ p ∈ (verifyPayment s oid "failed" SinkMode.ok).1.payments,
      p.orderId = oid → p.status = "failed") ∧
    (∀ q, storeStock (verifyPayment s oid "failed" SinkMode.ok).1 q =
      (storeStock s q).map (fun x => x + sumDeltas (orderDeltas s oid) q)) ∧
    (∀ q, storeStock (verifyPayment
        (verifyPayment s oid "failed" SinkMode.ok).1 oid "failed" SinkMode.ok).1 q =
      (storeStock s q).map (fun x => x + 2 * sumDeltas (orderDeltas s oid) q)) := by
  rw [verifyPayment_failed_effect s oid o hfind]
  have hmem : o ∈ s.orders := List.mem_of_find?_eq_some hfind
  have hid : o.id = oid := by
    have := List.find?_some hfind
    simpa using this
  have hsome2 : (findOrderById (restoreStock (setPaymentStatus
      (setOrderStatus s oid "cancelled") oid "failed") oid) oid).isSome := by
    unfold findOrderById
    rw [List.find?_isSome]
    refine ⟨{ o with status := "cancelled" }, ?_, by simp [hid]⟩
    rw [restoreStock_orders, setPaymentStatus_orders]
    unfold setOrderStatus
    exact List.mem_map.mpr ⟨o, hmem, by rw [if_pos hid]⟩
  rcases Option.isSome_iff_exists.mp hsome2 with ⟨o2, hfind2⟩
  rw [verifyPayment_failed_effect _ oid o2 hfind2]
  refine ⟨rfl, ?_, ?_, ?_, ?_⟩
  · intro o3 ho3 hid3
    rw [restoreStock_orders, setPaymentStatus_orders] at ho3
    exact setOrderStatus_mem s oid "cancelled" o3 ho3 hid3
  · intro p hp hid3
    rw [restoreStock_payments] at hp
    exact setPaymentStatus_mem _ oid "failed" p hp hid3
  · intro q
    rw [storeStock_def, storeStock_def, restoreStock_products, setPaymentStatus_products,
        setOrderStatus_products,
        orderDeltas_eq_of_orderItems (setPaymentStatus (setOrderStatus s oid "cancelled")
          oid "failed") s oid rfl,
        getStockM_applyDeltas]
  · intro q
    rw [storeStock_def, storeStock_def, restoreStock_products, setPaymentStatus_products,
        setOrderStatus_products,
        orderDeltas_eq_of_orderItems (setPaymentStatus (setOrderStatus
            (restoreStock (setPaymentStatus (setOrderStatus s oid "cancelled") oid "failed")
              oid) oid "cancelled") oid "failed") s oid rfl,
        restoreStock_products, setPaymentStatus_products, setOrderStatus_products,
        orderDeltas_eq_of_orderItems (setPaymentStatus (setOrderStatus s oid "cancelled")
          oid "failed") s oid rfl,
        getStockM_applyDeltas, getStockM_applyDeltas, Option.map_map]
    cases getStockM s.products q with
    | none => rfl
    | some x =>
        show some _ = some _
        have : x + sumDeltas (orderDeltas s oid) q + sumDeltas (orderDeltas s oid) q =
            x + 2 * sumDeltas (orderDeltas s oid) q := by ring
        simp [Function.comp, this]

/-- Witness for C10: order 42 of `sDone` is already cancelled with a
failed payment, yet verify-failed still reports success and pushes the
product's stock from 2 to 5, and a second run pushes it to 8. -/
theorem C10_verifyPayment_unguarded_witness :
    findOrderById sDone 42 = some ⟨42, 7, 404, "cancelled"⟩ ∧
    (verifyPayment sDone 42 "failed" SinkMode.ok).2 = Response.jsonSuccess ∧
    storeStock (verifyPayment sDone 42 "failed" SinkMode.ok).1 1 = some 5 ∧
    storeStock (verifyPayment
        (verifyPayment sDone 42 "failed" SinkMode.ok).1 42 "failed" SinkMode.ok).1 1 =
      some 8 := by
  have h := C10_verifyPayment_unguarded sDone 42 ⟨42, 7, 404, "cancelled"⟩ (by decide)
  refine ⟨by decide, h.1, ?_, ?_⟩
  · rw [h.2.2.2.1 1]
    decide
  · rw [h.2.2.2.2 1]
    decide

/-- C5: addItem 404s when the product is missing; for a fresh cart line
it succeeds exactly when qty ≤ stock (inserting the line) and fails with
an insufficient-stock rejection when qty > stock; for an existing line it
succeeds exactly when existing + qty ≤ stock (incrementing the line) and
fails with an insufficient-stock rejection otherwise. -/
theorem C5_addItem_spec (s : Store) (u pid qty : ℕ) :
    (lookupList s.products pid = none →
      addItem s u pid qty = (s, Response.notFound "Product not found")) ∧
    (∀ p, lookupList s.products pid = some p →
      (findCartLine s u pid = none →
        (((addItem s u pid qty).2 = Response.jsonSuccess) ↔ (qty : ℤ) ≤ p.stock) ∧
        ((qty : ℤ) ≤ p.stock →
          addItem s u pid qty =
            ({ s with
                cart := s.cart ++ [⟨s.nextCartId, u, pid, qty⟩],
                nextCartId := s.nextCartId + 1 }, Response.jsonSuccess)) ∧
        (p.stock < (qty : ℤ) →
          addItem s u pid qty = (s, Response.badRequest "Insufficient stock"))) ∧
      (∀ line, findCartLine s u pid = some line →
        (((addItem s u pid qty).2 = Response.jsonSuccess) ↔
          ((line.quantity + qty : ℕ) : ℤ) ≤ p.stock) ∧
        (((line.quantity + qty : ℕ) : ℤ) ≤ p.stock →
          addItem s u pid qty =
            ({ s with cart := s.cart.map (fun c =>
                if c.id = line.id then { c with quantity := line.quantity + qty } else c) },
             Response.jsonSuccess)) ∧
        (p.stock < ((line.quantity + qty : ℕ) : ℤ) →
          (addItem s u pid qty).1 = s ∧
          ((addItem s u pid qty).2 = Response.badRequest "Insufficient stock" ∨
            (addItem s u pid qty).2 =
              Response.badRequest "Cannot add more than available stock")))) := by
  refine ⟨?_, ?_⟩
  · intro h0
    unfold addItem
    rw [h0]
  · intro p hp
    constructor
    · intro hnone
      unfold addItem
      simp only [hp]
      by_cases h1 : p.stock < (qty : ℤ)
      · rw [if_pos h1]
        refine ⟨?_, ?_, ?_⟩
        · constructor
          · intro hresp; exact absurd hresp (by simp)
          · intro hle; exact absurd hle (by omega)
        · intro hle; exact absurd hle (by omega)
        · intro _; rfl
      · rw [if_neg h1]
        simp only [hnone]
        refine ⟨?_, ?_, ?_⟩
        · exact ⟨fun _ => by omega, fun _ => trivial⟩
        · intro _; trivial
        · intro hlt; exact absurd hlt h1
    · intro line hline
      unfold addItem
      simp only [hp]
      by_cases h1 : p.stock < (qty : ℤ)
      · rw [if_pos h1]
        refine ⟨?_, ?_, ?_⟩
        · constructor
          · intro hresp; exact absurd hresp (by simp)
          · intro hle; exact absurd hle (by push_cast; omega)
        · intro hle; exact absurd hle (by push_cast; omega)
        · intro _; exact ⟨rfl, Or.inl rfl⟩
      · rw [if_neg h1]
        simp only [hline]
        by_cases h2 : p.stock < ((line.quantity + qty : ℕ) : ℤ)
        · rw [if_pos h2]
          refine ⟨?_, ?_, ?_⟩
          · constructor
            · intro hresp; exact absurd hresp (by simp)
            · intro hle; exact absurd hle (by omega)
          · intro hle; exact absurd hle (by omega)
          · intro _; exact ⟨rfl, Or.inr rfl⟩
        · rw [if_neg h2]
          refine ⟨?_, ?_, ?_⟩
          · exact ⟨fun _ => by omega, fun _ => rfl⟩
          · intro _; rfl
          · intro hlt; exact absurd hlt h2

/-- Witness for C5 boundaries on `sAdd` (product stock 5, user 8 holding
an existing line of quantity 2): a fresh line of qty 5 succeeds, qty 6
fails; incrementing the existing line by 3 (reaching 5) succeeds, by 4
fails with the store unchanged. -/
theorem C5_addItem_spec_witness :
    (addItem sAdd 9 1 5).2 = Response.jsonSuccess ∧
    addItem sAdd 9 1 6 = (sAdd, Response.badRequest "Insufficient stock") ∧
    (addItem sAdd 8 1 3).2 = Response.jsonSuccess ∧
    (addItem sAdd 8 1 4).1 = sAdd ∧
    ((addItem sAdd 8 1 4).2 = Response.badRequest "Insufficient stock" ∨
      (addItem sAdd 8 1 4).2 = Response.badRequest "Cannot add more than available stock") := by
  have e1 := ((C5_addItem_spec sAdd 9 1 5).2 ⟨100, 5⟩ (by decide)).1 (by decide)
  have e2 := ((C5_addItem_spec sAdd 9 1 6).2 ⟨100, 5⟩ (by decide)).1 (by decide)
  have e3 := ((C5_addItem_spec sAdd 8 1 3).2 ⟨100, 5⟩ (by decide)).2 ⟨11, 8, 1, 2⟩ (by decide)
  have e4 := ((C5_addItem_spec sAdd 8 1 4).2 ⟨100, 5⟩ (by decide)).2 ⟨11, 8, 1, 2⟩ (by decide)
  exact ⟨e1.1.mpr (by decide), e2.2.2 (by decide), e3.1.mpr (by decide),
    (e4.2.2 (by decide)).1, (e4.2.2 (by decide)).2⟩

/-- C6: applyCoupon fails (store and session untouched) when no coupon
matches the code inside its validity window and under its usage cap, and
when the cart subtotal is strictly below the coupon's minimum order
amount; otherwise it increments the coupon's used count, reports success
and stores the computed discount in the session — for percentage coupons
the percentage of the subtotal capped at a positive max discount, for
other coupons the fixed amount. -/
theorem C6_applyCoupon_spec (s : Store) (u : ℕ) (code : String) (now : ℤ)
    (sess : Option ℚ) :
    (couponFind s code now = none →
      applyCoupon s u code now sess =
        (s, Response.jsonFailure "Invalid or expired coupon", sess)) ∧
    (∀ c, couponFind s code now = some c →
      (cartSubtotal (cartJoin s u) < c.minOrderAmount →
        applyCoupon s u code now sess =
          (s, Response.jsonFailure "Minimum order amount required", sess)) ∧
      (c.minOrderAmount ≤ cartSubtotal (cartJoin s u) →
        applyCoupon s u code now sess =
          (incUsedCount s c.id, Response.jsonSuccess,
            some (couponDiscount c (cartSubtotal (cartJoin s u)))))) ∧
    (∀ c : Coupon, ∀ m sub : ℚ, c.discountType = "percentage" →
      c.maxDiscount = some m → 0 < m →
      couponDiscount c sub = min (sub * c.discountValue / 100) m) ∧
    (∀ c : Coupon, ∀ sub : ℚ, c.discountType ≠ "percentage" →
      couponDiscount c sub = c.discountValue) := by
  refine ⟨?_, ?_, ?_, ?_⟩
  · intro h0
    unfold applyCoupon
    rw [h0]
  · intro c hc
    unfold applyCoupon
    simp only [hc]
    constructor
    · intro hlt
      rw [if_pos hlt]
    · intro hge
      rw [if_neg (not_lt.mpr hge)]
  · intro c m sub htype hmax hpos
    unfold couponDiscount
    simp only [htype, hmax]
    rw [if_pos (by decide : (("percentage" : String) == "percentage") = true)]
    by_cases hlt : m < sub * c.discountValue / 100
    · rw [if_pos ⟨ne_of_gt hpos, hlt⟩, min_eq_right (le_of_lt hlt)]
    · rw [if_neg (fun hand => hlt hand.2), min_eq_left (not_lt.mp hlt)]
  · intro c sub htype
    unfold couponDiscount
    rw [if_neg (by simpa using htype)]

/-- Witness for C6, scenario B: SAVE20 (20 percent, minimum order 500) is
found valid but rejected on `sB`'s subtotal of 400, leaving store and
session unchanged. -/
theorem C6_applyCoupon_spec_witness :
    couponFind sB "SAVE20" 50 =
      some ⟨1, "SAVE20", "percentage", 20, 500, some 200, 0, 100, some 50, 0⟩ ∧
    applyCoupon sB 7 "SAVE20" 50 none =
      (sB, Response.jsonFailure "Minimum order amount required", none) := by
  have hc : couponFind sB "SAVE20" 50 =
      some ⟨1, "SAVE20", "percentage", 20, 500, some 200, 0, 100, some 50, 0⟩ := by decide
  have h := ((C6_applyCoupon_spec sB 7 "SAVE20" 50 none).2.1 _ hc).1
  refine ⟨hc, h ?_⟩
  norm_num [cartSubtotal, cartJoin, sB, lookupList, List.filterMap_cons]

theorem lookupList_mem (m : List (ℕ × Prd)) (q : ℕ) (p : Prd)
    (h : lookupList m q = some p) : (q, p) ∈ m := by
  induction m with
  | nil => simp [lookupList] at h
  | cons e t ih =>
      rw [lookupList_cons] at h
      by_cases he : e.1 = q
      · subst he
        rw [if_pos rfl] at h
        have hp := Option.some.inj h
        subst hp
        exact List.mem_cons_self e t

      · rw [if_neg he] at h
        exact List.mem_cons_of_mem e (ih h)

/-- C7 counterexample: with one product of stock 1, adding one unit to
the cart, raising the line to quantity 2 through the unchecked
updateQuantity route, and checking out drives the stock to −1 — a
sequence of cart and checkout operations leaves a negative stock. -/
theorem C7_stock_goes_negative_counterexample :
    (updateQuantity (addItem s7 7 1 1).1 7 11 2).2 = Response.jsonSuccess ∧
    storeStock (processCheckout (updateQuantity (addItem s7 7 1 1).1 7 11 2).1 7
        none none SinkMode.ok).store 1 = some (-1) ∧
    (-1 : ℤ) < 0 := by
  decide

/-- C7 (amended): checkout never re-validates stock, so the
non-negativity invariant survives a checkout only under the side
condition the code does not enforce — every joined cart line's quantity
is at most its product's current stock at checkout time (with lines on
distinct products).  Under that condition, all stocks stay non-negative. -/
theorem C7_checkout_preserves_nonneg_stock (s : Store) (u : ℕ) (sess : Option ℚ)
    (hne : cartJoin s u ≠ [])
    (h0 : ∀ e ∈ s.products, 0 ≤ e.2.stock)
    (hq : ∀ it ∈ cartJoin s u, (it.1.quantity : ℤ) ≤ (storeStock s it.1.productId).getD 0)
    (hnd : ((cartJoin s u).map (fun it => it.1.productId)).Nodup) :
    ∀ q x, storeStock (processCheckout s u sess none SinkMode.ok).store q = some x →
      0 ≤ x := by
  intro q x hx
  rw [processCheckout_success s u sess hne] at hx
  have hx2 : getStockM (applyDeltas s.products (decDeltas (cartJoin s u))) q = some x := hx
  rw [getStockM_applyDeltas] at hx2
  cases hs : getStockM s.products q with
  | none => rw [hs] at hx2; simp at hx2
  | some y =>
      rw [hs] at hx2
      have hyx : y + sumDeltas (decDeltas (cartJoin s u)) q = x := by
        simpa using hx2
      have hy : 0 ≤ y := by
        have hs2 := hs
        unfold getStockM at hs2
        rcases Option.map_eq_some'.mp hs2 with ⟨p, hlk, hstk⟩
        have := h0 (q, p) (lookupList_mem s.products q p hlk)
        simpa [hstk] using this
      by_cases hmemq : q ∈ (cartJoin s u).map (fun it => it.1.productId)
      · rcases List.mem_map.mp hmemq with ⟨it, hit, rfl⟩
        have hsum := sumDeltas_decDeltas_of_nodup (cartJoin s u) hnd it hit
        have hqle := hq it hit
        rw [storeStock_def, hs] at hqle
        simp only [Option.getD_some] at hqle
        rw [hsum] at hyx
        omega
      · have hz : sumDeltas (decDeltas (cartJoin s u)) q = 0 := by
          apply sumDeltas_eq_zero_of_not_mem
          simpa [decDeltas, List.map_map, Function.comp] using hmemq
        rw [hz] at hyx
        omega

/-- Witness for C7 (amended): scenario A's checkout (2 ≤ stock 5) keeps
every stock non-negative. -/
theorem C7_checkout_preserves_nonneg_stock_witness :
    cartJoin sA 7 ≠ [] ∧
    (∀ it ∈ cartJoin sA 7,
      (it.1.quantity : ℤ) ≤ (storeStock sA it.1.productId).getD 0) ∧
    (∀ q x, storeStock (processCheckout sA 7 none none SinkMode.ok).store q = some x →
      0 ≤ x) := by
  refine ⟨by decide, by decide, ?_⟩
  exact C7_checkout_preserves_nonneg_stock sA 7 none (by decide) (by decide) (by decide)
    (by decide)

/-- C8 counterexample: the cart-update route happily writes quantity 10
against a stock of 5 and reports success — a cart mutation that leaves
quantity > product.stock. -/
theorem C8_cart_bound_violated_counterexample :
    (updateQuantity s8 7 11 10).2 = Response.jsonSuccess ∧
    (updateQuantity s8 7 11 10).1.cart = [⟨11, 7, 1, 10⟩] ∧
    storeStock (updateQuantity s8 7 11 10).1 1 = some 5 ∧
    ¬((10 : ℤ) ≤ 5) := by
  decide

/-- C8 (amended): only addItem enforces the bound — every cart line it
writes (fresh insert or increment) satisfies quantity ≤ the referenced
product's current stock; updateQuantity performs no stock check at all,
as the counterexample shows. -/
theorem C8_addItem_respects_stock_bound (s : Store) (u pid qty : ℕ) (p : Prd)
    (hp : lookupList s.products pid = some p)
    (hsucc : (addItem s u pid qty).2 = Response.jsonSuccess) :
    ∀ c ∈ (addItem s u pid qty).1.cart, c ∉ s.cart → (c.quantity : ℤ) ≤ p.stock := by
  intro c hc hnotin
  unfold addItem at hsucc hc
  simp only [hp] at hsucc hc
  by_cases h1 : p.stock < (qty : ℤ)
  · rw [if_pos h1] at hsucc
    simp at hsucc
  · rw [if_neg h1] at hsucc hc
    cases hline : findCartLine s u pid with
    | none =>
        simp only [hline] at hc
        have hc2 : c ∈ s.cart ++ [⟨s.nextCartId, u, pid, qty⟩] := hc
        rcases List.mem_append.mp hc2 with h | h
        · exact absurd h hnotin
        · have hcq := List.mem_singleton.mp h
          subst hcq
          show (qty : ℤ) ≤ p.stock
          omega
    | some line =>
        simp only [hline] at hsucc hc
        by_cases h2 : p.stock < ((line.quantity + qty : ℕ) : ℤ)
        · rw [if_pos h2] at hsucc
          simp at hsucc
        · rw [if_neg h2] at hc
          have hc2 : c ∈ s.cart.map (fun c0 =>
              if c0.id = line.id then { c0 with quantity := line.quantity + qty } else c0) :=
            hc
          rcases List.mem_map.mp hc2 with ⟨c0, hc0, rfl⟩
          by_cases hid : c0.id = line.id
          · rw [if_pos hid]
            show ((line.quantity + qty : ℕ) : ℤ) ≤ p.stock
            omega
          · rw [if_neg hid] at hnotin
            exact absurd hc0 hnotin

/-- Witness for C8 (amended): incrementing user 8's existing line by 3 on
`sAdd` succeeds and the freshly written line respects quantity ≤ 5. -/
theorem C8_addItem_respects_stock_bound_witness :
    (addItem sAdd 8 1 3).2 = Response.jsonSuccess ∧
    ∀ c ∈ (addItem sAdd 8 1 3).1.cart, c ∉ sAdd.cart → (c.quantity : ℤ) ≤ (5 : ℤ) := by
  refine ⟨by decide, ?_⟩
  exact C8_addItem_respects_stock_bound sAdd 8 1 3 ⟨100, 5⟩ (by decide) (by decide)

end Shop
